import Mathlib

/-!
Verification of the Stripe payment RESTful proxy (Flask app `app.py` and the
connectivity self-test `test_api.py`) against its natural-language
specification.  The Python code is shallowly embedded: JSON/Python values
become the inductive type `Json`, Python exceptions become `PyExn`, IEEE-754
binary64 (`float`) arithmetic is modelled exactly by dyadic rationals with
explicit round-to-nearest-even, and each handler is a total Lean function of
its parsed request body together with the outcome of the (single) outbound
gateway call it makes.
-/

namespace StripeProxy

/-! ## Exact model of the IEEE-754 binary64 arithmetic used by the handlers

`amount` arrives from a JSON body as a Python `float` (or `int`).  The only
float operations the app performs are `amount * 100` followed by `int(...)`,
and the comparison `amount <= 0`.  A finite double is represented exactly by
a pair `(mant, exp)` denoting the value `mant * 2 ^ exp`; the rounding
constructors below always produce the canonical pair (`|mant|` in
`[2^52, 2^53)`, or `(0, 0)`), so pair equality is value equality for every
value the embedding builds.  The amounts handled stay far inside the normal
range of binary64, where rounding is exactly round-to-nearest, ties-to-even
at 53 significant bits, which is what `roundDyadic` implements. -/

/-- Fuel-driven binary logarithm: `log2fuel f n` halves `n` until it reaches
`1`, consuming one unit of fuel per step.  With fuel `n` it computes
`⌊log₂ n⌋` for every `n ≥ 1` (halving reaches 1 within `n` steps). -/
def log2fuel : ℕ → ℕ → ℕ
  | 0, _ => 0
  | f + 1, n => if n ≤ 1 then 0 else log2fuel f (n / 2) + 1

/-- `⌊log₂ n⌋` for `n ≥ 1` (and `0` at `0`). -/
def natLog2 (n : ℕ) : ℕ := log2fuel n n

/-- Round `a / b` to the nearest natural number, ties to even (`b ≠ 0`). -/
def rdivNearestEven (a b : ℕ) : ℕ :=
  let q := a / b
  let r := a % b
  if 2 * r < b then q
  else if b < 2 * r then q + 1
  else if q % 2 = 0 then q else q + 1

/-- A finite IEEE-754 binary64 value, with exact value `mant * 2 ^ exp`. -/
structure F64 where
  mant : ℤ
  exp : ℤ
deriving DecidableEq, Repr

/-- Round the exact positive value `(num / den) * 2 ^ e` to 53 significant
bits, round-to-nearest ties-to-even: the correctly rounded binary64 result,
as a canonical mantissa/exponent pair. -/
def roundDyadic (num den : ℕ) (e : ℤ) : F64 :=
  if num = 0 then ⟨0, 0⟩
  else if den = 0 then ⟨0, 0⟩
  else
    let L : ℤ := (natLog2 num : ℤ) - (natLog2 den : ℤ)
    let Lv : ℤ := if den * 2 ^ L.toNat ≤ num * 2 ^ (-L).toNat then L else L - 1
    let sh : ℤ := Lv - 52
    let m := rdivNearestEven (num * 2 ^ (-sh).toNat) (den * 2 ^ sh.toNat)
    if m = 2 ^ 53 then ⟨2 ^ 52, e + sh + 1⟩ else ⟨(m : ℤ), e + sh⟩

/-- The double obtained by parsing the non-negative decimal literal
`num / den` (CPython float parsing is correctly rounded). -/
def F64.ofDecimal (num den : ℕ) : F64 := roundDyadic num den 0

/-- IEEE-754 binary64 multiplication: the exact product, rounded. -/
def F64.mul (x y : F64) : F64 :=
  let p := x.mant * y.mant
  let e := x.exp + y.exp
  if p = 0 then ⟨0, 0⟩
  else if 0 < p then roundDyadic p.toNat 1 e
  else
    let r := roundDyadic (-p).toNat 1 e
    ⟨-r.mant, r.exp⟩

/-- Python `int(x)` on a float: truncation toward zero. -/
def F64.toIntTrunc (x : F64) : ℤ :=
  if 0 ≤ x.exp then x.mant * ((2 ^ x.exp.toNat : ℕ) : ℤ)
  else Int.tdiv x.mant ((2 ^ (-x.exp).toNat : ℕ) : ℤ)

/-! ## JSON / Python values -/

/-- A JSON / Python value as handled by the app: `json` parsing in Python
yields `None`, `bool`, `int`, `float`, `str`, `list` and `dict` values. -/
inductive Json where
  | null
  | bool (b : Bool)
  | int (n : ℤ)
  | float (x : F64)
  | str (s : String)
  | arr (elems : List Json)
  | obj (fields : List (String × Json))

/-- Python truthiness (`bool(v)`) for the values above: `None`, `False`,
zero, empty string/list/dict are falsy. -/
def Json.truthy : Json → Bool
  | .null => false
  | .bool b => b
  | .int n => n != 0
  | .float x => x.mant != 0
  | .str s => s != ""
  | .arr l => !l.isEmpty
  | .obj l => !l.isEmpty

/-- The Python type name of a value, as it appears in runtime error
messages. -/
def Json.typeName : Json → String
  | .null => "NoneType"
  | .bool _ => "bool"
  | .int _ => "int"
  | .float _ => "float"
  | .str _ => "str"
  | .arr _ => "list"
  | .obj _ => "dict"

/-- Python exceptions raised by the handlers, carrying the `str(e)` text. -/
inductive PyExn where
  | typeError (msg : String)
  | attributeError (msg : String)
  | keyError (msg : String)
  | nameError (msg : String)
  | requestException (msg : String)
  | otherError (msg : String)
deriving DecidableEq, Repr

/-- `str(e)` for an exception: the carried message. -/
def PyExn.text : PyExn → String
  | .typeError m => m
  | .attributeError m => m
  | .keyError m => m
  | .nameError m => m
  | .requestException m => m
  | .otherError m => m

/-- Association-list lookup for a Python dict (`d[k]` / `d.get(k)` share
it); dict keys are unique, so first-match lookup is the dict lookup. -/
def lookupField (fields : List (String × Json)) (k : String) : Option Json :=
  match fields with
  | [] => none
  | (k2, v) :: rest => if k2 = k then some v else lookupField rest k

/-- `d.get(k, default)` on a dict value; a non-dict receiver raises
`AttributeError` exactly as Python does. -/
def Json.getAttr (v : Json) (k : String) (default : Json) : Except PyExn Json :=
  match v with
  | .obj fields => .ok ((lookupField fields k).getD default)
  | other => .error (.attributeError
      ("'" ++ other.typeName ++ "' object has no attribute 'get'"))

/-- `v[k]` subscription with a string key: dict lookup (raising `KeyError`
when absent), `TypeError` on a non-dict (in particular on `None`). -/
def Json.subscript (v : Json) (k : String) : Except PyExn Json :=
  match v with
  | .obj fields =>
    match lookupField fields k with
    | some w => .ok w
    | none => .error (.keyError ("'" ++ k ++ "'"))
  | .str _ => .error (.typeError "string indices must be integers")
  | other => .error (.typeError
      ("'" ++ other.typeName ++ "' object is not subscriptable"))

/-- `int(amount * 100)` as both payment endpoints compute it (the comment in
the source reads "Convert to cents"): exact for an `int` amount, IEEE double
multiply-then-truncate for a `float` amount, and a `TypeError` on
non-numeric values (unreachable behind the `amount <= 0` guard). -/
def amountTimes100Int : Json → Except PyExn ℤ
  | .int n => .ok (n * 100)
  | .bool b => .ok (if b then 100 else 0)
  | .float x => .ok (F64.toIntTrunc (F64.mul x (F64.ofDecimal 100 1)))
  | v => .error (.typeError
      ("unsupported operand type(s) for *: '" ++ v.typeName ++ "' and 'int'"))

/-- Python `amount <= 0`: defined for numbers (and `bool`), a `TypeError`
for other values such as strings. -/
def leZero : Json → Except PyExn Bool
  | .int n => .ok (decide (n ≤ 0))
  | .bool b => .ok (b = false)
  | .float x => .ok (decide (x.mant ≤ 0))
  | v => .error (.typeError
      ("'<=' not supported between instances of '" ++ v.typeName ++ "' and 'int'"))

/-- ASCII upper-casing of one character (`str.upper` on the method names
and the `HTTPS_ENABLED` value only ever meets ASCII). -/
def asciiUpperChar (c : Char) : Char :=
  if 97 ≤ c.toNat ∧ c.toNat ≤ 122 then Char.ofNat (c.toNat - 32) else c

/-- ASCII lower-casing of one character. -/
def asciiLowerChar (c : Char) : Char :=
  if 65 ≤ c.toNat ∧ c.toNat ≤ 90 then Char.ofNat (c.toNat + 32) else c

/-- Python `s.upper()` (ASCII). -/
def pyUpper (s : String) : String := String.mk (s.toList.map asciiUpperChar)

/-- Python `s.lower()` (ASCII). -/
def pyLower (s : String) : String := String.mk (s.toList.map asciiLowerChar)

/-- Whether a value is Python `None` (the absent-value sentinel the helper
uses in both the data and the error slot of its result triple). -/
def Json.isNull : Json → Bool
  | .null => true
  | _ => false

/-! ## The shared outbound-call helper `make_stripe_request` -/

/-- How `response.json()` went for the body of a received response: a parsed
JSON value (the literal `null` parses to `None`), or a `JSONDecodeError`
(the helper then falls back to `{"raw_response": text}`). -/
inductive BodyParse where
  | json (v : Json)
  | raw (text : String)

/-- The behavior of the external gateway for one outbound call: a response
with a status code and a body, a network-level failure
(`requests.exceptions.RequestException`), or any other exception raised
while performing the call. -/
inductive GatewayOutcome where
  | response (status : ℕ) (body : BodyParse)
  | requestException (msg : String)
  | otherException (msg : String)

/-- The normalized triple `(response_data, status_code, error_message)`
returned by `make_stripe_request`; Python `None` in the first or third slot
is `Json.null`. -/
structure StripeResult where
  response_data : Json
  status_code : ℕ
  error : Json

/-- Result of calling a Python function: a normal return, or an uncaught
exception propagating to the caller. -/
inductive PyResult (α : Type) where
  | ret (a : α)
  | raised (e : PyExn)

/-- The `response_data` the helper works with: the parsed JSON body, or the
`{"raw_response": text}` fallback on a `JSONDecodeError` (app.py 77-84). -/
def parsedBody : BodyParse → Json
  | .json v => v
  | .raw t => .obj [("raw_response", .str t)]

/-- `response_data.get('error', {}).get('message', 'Unknown error')`
(app.py line 88): raises `AttributeError` when the body, or its `error`
field, is not a dict. -/
def errorMessage (rd : Json) : Except PyExn Json := do
  let e ← rd.getAttr "error" (.obj [])
  e.getAttr "message" (.str "Unknown error")

/-- Is the exception an instance of `requests.exceptions.RequestException`
(what the helper's first `except` clause catches)? -/
def PyExn.isRequestException : PyExn → Bool
  | .requestException _ => true
  | _ => false

/-- The code inside the `try:` of `make_stripe_request` (app.py 58-95): the
method dispatch, the body parse, and the error extraction for a status
`>= 400`.  A `.error` is an exception escaping the block into the `except`
clauses. -/
def stripeTryBody (method : String) (gw : GatewayOutcome) :
    Except PyExn StripeResult :=
  if pyUpper method = "GET" ∨ pyUpper method = "POST" then
    match gw with
    | .requestException msg => .error (.requestException msg)
    | .otherException msg => .error (.otherError msg)
    | .response status body =>
      let response_data := parsedBody body
      if 400 ≤ status then
        match errorMessage response_data with
        | .ok msg => .ok ⟨.null, status, msg⟩
        | .error e => .error e
      else .ok ⟨response_data, status, .null⟩
  else .ok ⟨.null, 400, .str ("Unsupported HTTP method: " ++ method)⟩

/-- `make_stripe_request(method, endpoint, data)` (app.py 17-106): the
shared outbound-call helper.  The code before the `try` (URL join, header
dict, diagnostic logging) is pure for string inputs and cannot raise; the
`except requests.exceptions.RequestException` clause maps network failures
to a 500 "Request failed: ..." triple, and the `except Exception` clause
maps every other exception to a 500 "Unexpected error: ..." triple.  The
`endpoint` and `data` arguments shape the real HTTP request, whose result
is abstracted by `gw`. -/
def make_stripe_request (method : String) (endpoint : String)
    (data : Option (List (String × Json))) (gw : GatewayOutcome) :
    PyResult StripeResult :=
  match stripeTryBody method gw with
  | .ok r => .ret r
  | .error e =>
    if e.isRequestException then
      .ret ⟨.null, 500, .str ("Request failed: " ++ e.text)⟩
    else
      .ret ⟨.null, 500, .str ("Unexpected error: " ++ e.text)⟩

/-- The Authorization-header masking in the helper's diagnostic log
(app.py 43-47): `value[:20] + "..." + value[-4:]` when `len(value) > 24`,
else `"***"`, where `value` is the header value.  Python strings are
character sequences, so the slicing is modelled on `List Char`. -/
def maskChars (value : List Char) : List Char :=
  if 24 < value.length then
    value.take 20 ++ "...".toList ++ value.drop (value.length - 4)
  else "***".toList

/-- The masked text printed for the `Authorization` line, whose header value
is `"Bearer " + STRIPE_SECRET_KEY` (app.py 31, 43-47). -/
def maskedAuthorization (key : String) : String :=
  String.mk (maskChars ("Bearer " ++ key).toList)

/-! ## The HTTP endpoint handlers -/

/-- What a Flask handler produces: `jsonify(dict), status` (status 200 when
omitted), a rendered HTML template, or an uncaught exception - in which
case Flask itself answers with its HTML 500 error page, not with the
handler's own body. -/
inductive HandlerResp where
  | jsonBody (body : List (String × Json)) (status : ℕ)
  | page (template : String) (args : List (String × Json))
  | errorPage (e : PyExn)

/-- Discriminator: did the handler answer with a `jsonify` body? -/
def HandlerResp.isJson : HandlerResp → Bool
  | .jsonBody _ _ => true
  | _ => false

/-- An outbound gateway request as handed to `make_stripe_request`. -/
structure OutboundCall where
  method : String
  endpoint : String
  formData : Option (List (String × Json))

/-- One run of an endpoint: the HTTP response and the gateway call it made,
if any (`none` = the gateway was never contacted). -/
structure EndpointRun where
  resp : HandlerResp
  call : Option OutboundCall

/-- `POST /create-payment-intent` (app.py 193-251).  `body` is the parsed
JSON request body (a dict), `gw` the gateway's behavior for the one
outbound call, consulted only if that call is made.  The whole handler body
sits in a `try:` whose `except Exception` answers
`{'error': 'An error occurred'}, 500`. -/
def create_payment_intent (body : List (String × Json))
    (gw : GatewayOutcome) : EndpointRun :=
  let amount := (lookupField body "amount").getD .null
  let currency := (lookupField body "currency").getD (.str "usd")
  if ¬ amount.truthy then
    ⟨.jsonBody [("error", .str "Invalid amount")] 400, none⟩
  else
    match leZero amount with
    | .error _ => ⟨.jsonBody [("error", .str "An error occurred")] 500, none⟩
    | .ok true => ⟨.jsonBody [("error", .str "Invalid amount")] 400, none⟩
    | .ok false =>
      match amountTimes100Int amount with
      | .error _ => ⟨.jsonBody [("error", .str "An error occurred")] 500, none⟩
      | .ok cents =>
        let stripe_data : List (String × Json) :=
          [("amount", .int cents),
           ("currency", currency),
           ("automatic_payment_methods[enabled]", .str "true"),
           ("automatic_payment_methods[allow_redirects]", .str "always"),
           ("metadata[integration_check]", .str "accept_a_payment")]
        let sent := some (⟨"POST", "payment_intents", some stripe_data⟩ : OutboundCall)
        match make_stripe_request "POST" "payment_intents" (some stripe_data) gw with
        | .raised _ => ⟨.jsonBody [("error", .str "An error occurred")] 500, sent⟩
        | .ret res =>
          if res.error.truthy then
            ⟨.jsonBody [("error", res.error)] res.status_code, sent⟩
          else
            match res.response_data.subscript "client_secret" with
            | .error _ => ⟨.jsonBody [("error", .str "An error occurred")] 500, sent⟩
            | .ok cs =>
              match res.response_data.subscript "id" with
              | .error _ => ⟨.jsonBody [("error", .str "An error occurred")] 500, sent⟩
              | .ok pid =>
                ⟨.jsonBody [("client_secret", cs), ("payment_intent_id", pid)] 200, sent⟩

/-- `POST /create-checkout-session` (app.py 118-191), with the same
validation and catch-all structure as `create_payment_intent`; `urlRoot` is
`request.url_root`.  (`customer_name` / `customer_email` are read but their
forwarding lines are commented out in the source.) -/
def create_checkout_session (urlRoot : String) (body : List (String × Json))
    (gw : GatewayOutcome) : EndpointRun :=
  let amount := (lookupField body "amount").getD .null
  let currency := (lookupField body "currency").getD (.str "usd")
  if ¬ amount.truthy then
    ⟨.jsonBody [("error", .str "Invalid amount")] 400, none⟩
  else
    match leZero amount with
    | .error _ => ⟨.jsonBody [("error", .str "An error occurred")] 500, none⟩
    | .ok true => ⟨.jsonBody [("error", .str "Invalid amount")] 400, none⟩
    | .ok false =>
      match amountTimes100Int amount with
      | .error _ => ⟨.jsonBody [("error", .str "An error occurred")] 500, none⟩
      | .ok cents =>
        let stripe_data : List (String × Json) :=
          [("payment_method_types[0]", .str "card"),
           ("payment_method_types[1]", .str "alipay"),
           ("payment_method_types[2]", .str "wechat_pay"),
           ("payment_method_options[wechat_pay][client]", .str "web"),
           ("line_items[0][price_data][currency]", currency),
           ("line_items[0][price_data][product_data][name]", .str "Payment"),
           ("line_items[0][price_data][unit_amount]", .int cents),
           ("line_items[0][quantity]", .str "1"),
           ("mode", .str "payment"),
           ("success_url", .str (urlRoot ++ "payment-success?session_id=\x7bCHECKOUT_SESSION_ID\x7d")),
           ("cancel_url", .str (urlRoot ++ "payment-cancel")),
           ("metadata[integration_check]", .str "accept_a_payment")]
        let sent := some (⟨"POST", "checkout/sessions", some stripe_data⟩ : OutboundCall)
        match make_stripe_request "POST" "checkout/sessions" (some stripe_data) gw with
        | .raised _ => ⟨.jsonBody [("error", .str "An error occurred")] 500, sent⟩
        | .ret res =>
          if res.error.truthy then
            ⟨.jsonBody [("error", res.error)] res.status_code, sent⟩
          else
            match res.response_data.subscript "url" with
            | .error _ => ⟨.jsonBody [("error", .str "An error occurred")] 500, sent⟩
            | .ok u =>
              match res.response_data.subscript "id" with
              | .error _ => ⟨.jsonBody [("error", .str "An error occurred")] 500, sent⟩
              | .ok sid =>
                ⟨.jsonBody [("checkout_url", u), ("session_id", sid)] 200, sent⟩

/-- `GET /payment-success` (app.py 467-479).  There is no `try:` in this
handler; before the `if error:` check it executes
`print(response_data["payment_intent"])`, so any exception there escapes to
Flask.  `session_id` is the query parameter as a string. -/
def payment_success (session_id : String) (gw : GatewayOutcome) : HandlerResp :=
  match make_stripe_request "GET" ("checkout/sessions/" ++ session_id) none gw with
  | .raised e => .errorPage e
  | .ret res =>
    match res.response_data.subscript "payment_intent" with
    | .error e => .errorPage e
    | .ok _ =>
      if res.error.truthy then
        .jsonBody [("error", res.error)] res.status_code
      else
        match res.response_data.subscript "payment_intent" with
        | .error e => .errorPage e
        | .ok pid => .page "success.html" [("payment_id", pid)]

/-! ## Process startup (`__main__`, app.py 535-553) -/

/-- What the `__main__` block does after computing its configuration: call
`app.run` with some arguments, or crash on an exception before any server
starts. -/
inductive MainOutcome where
  | run (host : String) (port : ℤ) (debug : Bool) (ssl : Option (String × String))
  | crash (e : PyExn)
deriving DecidableEq, Repr

/-- The `__main__` startup logic (app.py 535-553).  `portVal` stands for the
already-converted `int(os.getenv('PORT', 5500))`; the other five parameters
are the raw `os.getenv` results (`none` = unset); `fileExists` is
`os.path.exists`.  `ssl_cert` / `ssl_key` are assigned only inside the
`HTTPS_ENABLED == 'true'` branch, yet `os.path.exists(ssl_cert)` runs
unconditionally - referencing them when that branch did not run raises
`NameError`. -/
def mainStartup (portVal : ℤ)
    (hostEnv flaskEnv httpsEnv certEnv keyEnv : Option String)
    (fileExists : String → Bool) : MainOutcome :=
  let host := hostEnv.getD "0.0.0.0"
  let debug := flaskEnv != some "production"
  if pyLower (httpsEnv.getD "false") = "true" then
    let ssl_cert := certEnv.getD "cert.pem"
    let ssl_key := keyEnv.getD "key.pem"
    if fileExists ssl_cert ∧ fileExists ssl_key then
      .run host portVal debug (some (ssl_cert, ssl_key))
    else
      .run "0.0.0.0" 5500 true none
  else
    .crash (.nameError "name 'ssl_cert' is not defined")

/-! ## The connectivity self-test utility (`test_api.py`)

`test_stripe_api` performs up to four direct REST calls in strict sequence,
stopping at the first failure.  The model records the calls actually made,
the principal diagnostic lines printed (the constant banner texts and the
status/error lines; purely decorative headers and value-interpolated detail
lines are elided), and the returned success flag. -/

/-- One response from the gateway as the self-test script sees it. -/
structure TestResponse where
  status : ℕ
  parse : BodyParse
  text : String

/-- The gateway's behavior for each of the four calls the script can make. -/
structure TestGateway where
  listCustomers : TestResponse
  createCustomer : TestResponse
  createPaymentIntent : TestResponse
  retrievePaymentIntent : TestResponse

/-- `response.json()`: the parsed value, raising for an unparseable body. -/
def respJson : BodyParse → Except PyExn Json
  | .json v => .ok v
  | .raw _ => .error (.otherError "Expecting value: line 1 column 1 (char 0)")

/-- `x[:20]` as used on the client secret: slicing works on sequences and
raises `TypeError` elsewhere. -/
def sliceTake20 : Json → Except PyExn Json
  | .str s => .ok (.str (String.mk (s.toList.take 20)))
  | .arr l => .ok (.arr (l.take 20))
  | v => .error (.typeError ("'" ++ v.typeName ++ "' object is not subscriptable"))

/-- `x / 100` on the retrieved amount: defined for numbers only. -/
def div100Check : Json → Except PyExn Unit
  | .int _ => .ok ()
  | .float _ => .ok ()
  | .bool _ => .ok ()
  | v => .error (.typeError
      ("unsupported operand type(s) for /: '" ++ v.typeName ++ "' and 'int'"))

/-- `x.upper()` on the retrieved currency code. -/
def upperCheck : Json → Except PyExn Unit
  | .str _ => .ok ()
  | v => .error (.attributeError ("'" ++ v.typeName ++ "' object has no attribute 'upper'"))

/-- The observable outcome of one run of the script body. -/
structure TestRun where
  lines : List String
  calls : List String
  success : Bool

/-- `test_stripe_api()` (test_api.py 14-142): check the configured key, then
list customers, create a customer, create a payment intent and retrieve it,
stopping at the first failure.  Each step sits in its own
`try/except Exception`. -/
def test_stripe_api (key : Option String) (gw : TestGateway) : TestRun :=
  if (key.getD "") = "" then
    { lines := ["❌ Error: STRIPE_SECRET_KEY not found in environment variables",
                "Please create a .env file with your Stripe secret key"],
      calls := [], success := false }
  else
    let call1 := "GET customers?limit=1"
    let r1 := gw.listCustomers
    if r1.status ≠ 200 then
      { lines := ["❌ API connection failed: " ++ toString r1.status,
                  "   Error: " ++ r1.text],
        calls := [call1], success := false }
    else
      match respJson r1.parse >>= fun d => d.getAttr "data" (.arr []) with
      | .error e =>
        { lines := ["✅ API connection successful!",
                    "❌ API connection test failed: " ++ e.text],
          calls := [call1], success := false }
      | .ok _ =>
        let pre1 := ["✅ API connection successful!"]
        let call2 := "POST customers"
        let r2 := gw.createCustomer
        if r2.status ≠ 200 then
          { lines := pre1 ++ ["❌ Customer creation failed: " ++ toString r2.status,
                              "   Error: " ++ r2.text],
            calls := [call1, call2], success := false }
        else
          match respJson r2.parse >>= fun d => d.subscript "id" with
          | .error e =>
            { lines := pre1 ++ ["✅ Test customer created successfully!",
                                "❌ Customer creation test failed: " ++ e.text],
              calls := [call1, call2], success := false }
          | .ok _ =>
            let pre2 := pre1 ++ ["✅ Test customer created successfully!"]
            let call3 := "POST payment_intents"
            let r3 := gw.createPaymentIntent
            if r3.status ≠ 200 then
              { lines := pre2 ++ ["❌ Payment intent creation failed: " ++ toString r3.status,
                                  "   Error: " ++ r3.text],
                calls := [call1, call2, call3], success := false }
            else
              match respJson r3.parse >>= fun d => do
                  let _ ← d.subscript "id"
                  let cs ← d.subscript "client_secret"
                  let _ ← sliceTake20 cs
                  d.subscript "id" with
              | .error e =>
                { lines := pre2 ++ ["✅ Test payment intent created successfully!",
                                    "❌ Payment intent creation test failed: " ++ e.text],
                  calls := [call1, call2, call3], success := false }
              | .ok _ =>
                let pre3 := pre2 ++ ["✅ Test payment intent created successfully!"]
                let call4 := "GET payment_intents/:id"
                let r4 := gw.retrievePaymentIntent
                if r4.status ≠ 200 then
                  { lines := pre3 ++ ["❌ Payment intent retrieval failed: " ++ toString r4.status,
                                      "   Error: " ++ r4.text],
                    calls := [call1, call2, call3, call4], success := false }
                else
                  match respJson r4.parse >>= fun d => do
                      let _ ← d.subscript "status"
                      let amt ← d.subscript "amount"
                      let _ ← div100Check amt
                      let cur ← d.subscript "currency"
                      upperCheck cur with
                  | .error e =>
                    { lines := pre3 ++ ["✅ Payment intent retrieved successfully!",
                                        "❌ Payment intent retrieval test failed: " ++ e.text],
                      calls := [call1, call2, call3, call4], success := false }
                  | .ok _ =>
                    { lines := pre3 ++ ["✅ Payment intent retrieved successfully!",
                                        "🎉 All tests passed! Your Stripe API integration is working correctly."],
                      calls := [call1, call2, call3, call4], success := true }

/-- Running `python test_api.py` (test_api.py 144-152): the run's
observations plus the process exit status - `exit(1)` when
`test_stripe_api` reported failure, falling off the end (exit 0)
otherwise. -/
def test_api_main (key : Option String) (gw : TestGateway) : TestRun × ℕ :=
  let r := test_stripe_api key gw
  (r, if r.success then 0 else 1)

/-! ## Shared structural lemmas about the helper -/

/-- Every `.ok` result of the helper's try-block has a `None` data slot or a
`None` error slot. -/
theorem stripeTryBody_slots (method : String) (gw : GatewayOutcome) (r : StripeResult)
    (h : stripeTryBody method gw = .ok r) :
    r.response_data = .null ∨ r.error = .null := by
  unfold stripeTryBody at h
  split at h
  · cases gw with
    | requestException msg => exact absurd h (by simp)
    | otherException msg => exact absurd h (by simp)
    | response status body =>
      simp only at h
      split at h
      · split at h
        · cases h; exact Or.inl rfl
        · exact absurd h (by simp)
      · cases h; exact Or.inr rfl
  · cases h; exact Or.inl rfl

/-- Every triple the helper returns has a `None` data slot or a `None`
error slot. -/
theorem helper_slots (method endpoint : String) (data : Option (List (String × Json)))
    (gw : GatewayOutcome) (res : StripeResult)
    (h : make_stripe_request method endpoint data gw = .ret res) :
    res.response_data = .null ∨ res.error = .null := by
  unfold make_stripe_request at h
  cases hb : stripeTryBody method gw with
  | ok r =>
    rw [hb] at h
    injection h with h2
    subst h2
    exact stripeTryBody_slots method gw _ hb
  | error e =>
    rw [hb] at h
    cases e <;> simp only [PyExn.isRequestException, reduceIte] at h <;>
      (injection h with h2; exact Or.inl (by rw [← h2]))

/-! ## The claims -/

set_option maxRecDepth 8000

/-- C1: the spec says the minor-unit amount sent to the gateway equals
`round(amount * 100)` and that amount `19.99` yields `1999`.  The code
computes `int(amount * 100)`, truncating the IEEE double product
`19.99 * 100 = 1998.9999999999998`, so both endpoints place `1998` - one
cent short - in the outbound payload, contradicting the "Convert to cents"
intent stated in the source. -/
theorem amount_19_99_truncated_to_1998 :
    (create_payment_intent [("amount", Json.float (F64.ofDecimal 1999 100))]
        (.requestException "down")).call
      = some ⟨"POST", "payment_intents", some
          [("amount", Json.int 1998),
           ("currency", Json.str "usd"),
           ("automatic_payment_methods[enabled]", Json.str "true"),
           ("automatic_payment_methods[allow_redirects]", Json.str "always"),
           ("metadata[integration_check]", Json.str "accept_a_payment")]⟩
    ∧ (create_checkout_session "http://localhost:5500/"
          [("amount", Json.float (F64.ofDecimal 1999 100))] (.requestException "down")).call
      = some ⟨"POST", "checkout/sessions", some
          [("payment_method_types[0]", Json.str "card"),
           ("payment_method_types[1]", Json.str "alipay"),
           ("payment_method_types[2]", Json.str "wechat_pay"),
           ("payment_method_options[wechat_pay][client]", Json.str "web"),
           ("line_items[0][price_data][currency]", Json.str "usd"),
           ("line_items[0][price_data][product_data][name]", Json.str "Payment"),
           ("line_items[0][price_data][unit_amount]", Json.int 1998),
           ("line_items[0][quantity]", Json.str "1"),
           ("mode", Json.str "payment"),
           ("success_url", Json.str
             "http://localhost:5500/payment-success?session_id=\x7bCHECKOUT_SESSION_ID\x7d"),
           ("cancel_url", Json.str "http://localhost:5500/payment-cancel"),
           ("metadata[integration_check]", Json.str "accept_a_payment")]⟩
    ∧ (1998 : ℤ) ≠ 1999 := by
  refine ⟨rfl, rfl, by decide⟩

/-- C2 counterexample: with the gateway unreachable (the lookup fails), the
success-page handler does not return the JSON error tuple: it raises an
uncaught `TypeError` subscripting the `None` data slot, so Flask answers
with its HTML 500 error page. -/
theorem payment_success_failure_not_json :
    payment_success "cs_1" (.requestException "connection refused")
      = .errorPage (.typeError "'NoneType' object is not subscriptable")
    ∧ (payment_success "cs_1" (.requestException "connection refused")).isJson = false :=
  ⟨rfl, rfl⟩

/-- C2 (amended): whenever the gateway lookup reports an error, the handler
raises an uncaught `TypeError` at `response_data["payment_intent"]` before
reaching its `if error:` check (the helper's data slot is `None` on every
error path), so the JSON `{error}` return on its error branch is dead code:
the client gets the framework's HTML 500 error page instead. -/
theorem payment_success_gateway_failure_uncaught (sid : String) (gw : GatewayOutcome)
    (res : StripeResult)
    (hres : make_stripe_request "GET" ("checkout/sessions/" ++ sid) none gw = .ret res)
    (herr : res.error.truthy = true) :
    payment_success sid gw
      = .errorPage (.typeError "'NoneType' object is not subscriptable") := by
  have hnull : res.response_data = .null := by
    rcases helper_slots _ _ _ _ _ hres with h | h
    · exact h
    · rw [h] at herr; exact absurd herr (by simp [Json.truthy])
  unfold payment_success
  rw [hres]
  simp [hnull, Json.subscript, Json.typeName]

/-- Witness for C2 (amended) at a concrete failing lookup. -/
theorem payment_success_gateway_failure_uncaught_witness :
    payment_success "cs_w" (.requestException "boom")
      = .errorPage (.typeError "'NoneType' object is not subscriptable") :=
  payment_success_gateway_failure_uncaught "cs_w" (.requestException "boom")
    ⟨.null, 500, .str "Request failed: boom"⟩ rfl rfl

/-- C3 counterexample: startup does not always force `0.0.0.0:5500` with
debug on.  With `HTTPS_ENABLED=true` and both certificate files present the
computed host/port/debug/ssl values are used; and with `HTTPS_ENABLED`
unset, startup crashes on a `NameError` before any `app.run`. -/
theorem startup_not_always_hardcoded :
    (mainStartup 8080 (some "127.0.0.1") (some "production") (some "true") none none
        (fun _ => true)
      = .run "127.0.0.1" 8080 false (some ("cert.pem", "key.pem")))
    ∧ (MainOutcome.run "127.0.0.1" 8080 false (some ("cert.pem", "key.pem"))
        ≠ .run "0.0.0.0" 5500 true none)
    ∧ (mainStartup 9000 none none none none none (fun _ => false)
      = .crash (.nameError "name 'ssl_cert' is not defined")) := by
  refine ⟨rfl, by decide, rfl⟩

/-- C3 (amended): the hardcoded `app.run(debug=True, host='0.0.0.0',
port=5500)` happens exactly when `HTTPS_ENABLED` lowercases to "true" but
the certificate pair is incomplete; with both files present the computed
configuration is used, and with `HTTPS_ENABLED` anything else startup
raises `NameError` on the undefined `ssl_cert` and no server starts. -/
theorem startup_characterization (portVal : ℤ)
    (hostEnv flaskEnv httpsEnv certEnv keyEnv : Option String)
    (fileExists : String → Bool) :
    (pyLower (httpsEnv.getD "false") = "true" →
      (fileExists (certEnv.getD "cert.pem") = true →
       fileExists (keyEnv.getD "key.pem") = true →
        mainStartup portVal hostEnv flaskEnv httpsEnv certEnv keyEnv fileExists
          = .run (hostEnv.getD "0.0.0.0") portVal (flaskEnv != some "production")
              (some (certEnv.getD "cert.pem", keyEnv.getD "key.pem")))
      ∧ (¬ (fileExists (certEnv.getD "cert.pem") = true
            ∧ fileExists (keyEnv.getD "key.pem") = true) →
        mainStartup portVal hostEnv flaskEnv httpsEnv certEnv keyEnv fileExists
          = .run "0.0.0.0" 5500 true none))
    ∧ (pyLower (httpsEnv.getD "false") ≠ "true" →
        mainStartup portVal hostEnv flaskEnv httpsEnv certEnv keyEnv fileExists
          = .crash (.nameError "name 'ssl_cert' is not defined")) := by
  refine ⟨fun ht => ⟨fun h1 h2 => ?_, fun hnot => ?_⟩, fun hf => ?_⟩
  · simp [mainStartup, ht, h1, h2]
  · simp [mainStartup, ht, hnot]
  · simp [mainStartup, hf]

/-- Witness for C3 (amended): HTTPS requested but certificates missing is
the one configuration that lands on the hardcoded call. -/
theorem startup_characterization_witness :
    mainStartup 1234 (some "10.0.0.5") (some "production") (some "true") none none
        (fun _ => false)
      = .run "0.0.0.0" 5500 true none :=
  ((startup_characterization 1234 (some "10.0.0.5") (some "production") (some "true")
      none none (fun _ => false)).1 rfl).2 (by simp)

/-- C4 counterexample: a 402 response whose body is `{"error": "bad"}` (the
`error` field a string, not an object) does not produce 402 with "Unknown
error": the `.get` chain raises `AttributeError`, the catch-all turns it
into status 500 with an "Unexpected error: ..." message. -/
theorem gateway_error_nonobject_500 :
    make_stripe_request "POST" "payment_intents" (some [])
        (.response 402 (.json (.obj [("error", Json.str "bad")])))
      = .ret ⟨.null, 500, .str "Unexpected error: 'str' object has no attribute 'get'"⟩
    ∧ (500 : ℕ) ≠ 402 :=
  ⟨rfl, by decide⟩

/-- C4 (amended): for a response with status >= 400 whose parsed body is an
object, the helper returns the gateway's status code with the body's
`error.message` when the `error` field is an object carrying one, and the
literal "Unknown error" when `error` is absent, lacks `message`, or the
body was unparseable; but when the `error` field is present and not an
object, the attribute access raises and the helper instead returns status
500 with an "Unexpected error: ..." message. -/
theorem gateway_error_message_extraction (method endpoint : String)
    (data : Option (List (String × Json))) (status : ℕ) (hs : 400 ≤ status)
    (hm : pyUpper method = "GET" ∨ pyUpper method = "POST") :
    (∀ fields, lookupField fields "error" = none →
        make_stripe_request method endpoint data (.response status (.json (.obj fields)))
          = .ret ⟨.null, status, .str "Unknown error"⟩)
    ∧ (∀ fields efields, lookupField fields "error" = some (.obj efields) →
        make_stripe_request method endpoint data (.response status (.json (.obj fields)))
          = .ret ⟨.null, status,
              (lookupField efields "message").getD (.str "Unknown error")⟩)
    ∧ (∀ text, make_stripe_request method endpoint data (.response status (.raw text))
          = .ret ⟨.null, status, .str "Unknown error"⟩)
    ∧ (∀ fields v, lookupField fields "error" = some v → (∀ efields, v ≠ .obj efields) →
        make_stripe_request method endpoint data (.response status (.json (.obj fields)))
          = .ret ⟨.null, 500,
              .str ("Unexpected error: '" ++ v.typeName
                ++ "' object has no attribute 'get'")⟩) := by
  have hcond : (pyUpper method = "GET" ∨ pyUpper method = "POST") = True := by simp [hm]
  refine ⟨fun fields hf => ?_, fun fields efields hf => ?_, fun text => ?_,
    fun fields v hf hv => ?_⟩
  · simp [make_stripe_request, stripeTryBody, hcond, parsedBody, hs, errorMessage, bind,
      Except.bind, Json.getAttr, hf, lookupField]
  · simp [make_stripe_request, stripeTryBody, hcond, parsedBody, hs, errorMessage, bind,
      Except.bind, Json.getAttr, hf]
  · simp [make_stripe_request, stripeTryBody, hcond, parsedBody, hs, errorMessage, bind,
      Except.bind, Json.getAttr, lookupField]
  · cases v with
    | obj efields => exact absurd rfl (hv efields)
    | null => simp [make_stripe_request, stripeTryBody, hcond, parsedBody, hs,
        errorMessage, bind, Except.bind, Json.getAttr, hf, Json.typeName,
        PyExn.isRequestException, PyExn.text]
    | bool b => simp [make_stripe_request, stripeTryBody, hcond, parsedBody, hs,
        errorMessage, bind, Except.bind, Json.getAttr, hf, Json.typeName,
        PyExn.isRequestException, PyExn.text]
    | int n => simp [make_stripe_request, stripeTryBody, hcond, parsedBody, hs,
        errorMessage, bind, Except.bind, Json.getAttr, hf, Json.typeName,
        PyExn.isRequestException, PyExn.text]
    | float x => simp [make_stripe_request, stripeTryBody, hcond, parsedBody, hs,
        errorMessage, bind, Except.bind, Json.getAttr, hf, Json.typeName,
        PyExn.isRequestException, PyExn.text]
    | str s => simp [make_stripe_request, stripeTryBody, hcond, parsedBody, hs,
        errorMessage, bind, Except.bind, Json.getAttr, hf, Json.typeName,
        PyExn.isRequestException, PyExn.text]
    | arr l => simp [make_stripe_request, stripeTryBody, hcond, parsedBody, hs,
        errorMessage, bind, Except.bind, Json.getAttr, hf, Json.typeName,
        PyExn.isRequestException, PyExn.text]

/-- Witness for C4 (amended) at a concrete unparseable 404 body. -/
theorem gateway_error_message_extraction_witness :
    make_stripe_request "GET" "payment_intents/pi_1" none (.response 404 (.raw "oops"))
      = .ret ⟨.null, 404, .str "Unknown error"⟩ :=
  (gateway_error_message_extraction "GET" "payment_intents/pi_1" none 404 (by norm_num)
      (Or.inl rfl)).2.2.1 "oops"

/-- C5: with `amount` absent or a number less than or equal to zero, both
payment endpoints answer 400 `{'error': 'Invalid amount'}` and never
contact the gateway. -/
theorem invalid_amount_rejected_no_call (body : List (String × Json))
    (gw : GatewayOutcome) (urlRoot : String)
    (h : lookupField body "amount" = none
       ∨ (∃ n : ℤ, lookupField body "amount" = some (.int n) ∧ n ≤ 0)
       ∨ (∃ x : F64, lookupField body "amount" = some (.float x) ∧ x.mant ≤ 0)) :
    create_payment_intent body gw
      = ⟨.jsonBody [("error", .str "Invalid amount")] 400, none⟩
    ∧ create_checkout_session urlRoot body gw
      = ⟨.jsonBody [("error", .str "Invalid amount")] 400, none⟩ := by
  obtain h | ⟨n, h, hn⟩ | ⟨x, h, hx⟩ := h
  · constructor <;> simp [create_payment_intent, create_checkout_session, h, Json.truthy]
  · by_cases hn0 : n = 0
    · subst hn0
      constructor <;> simp [create_payment_intent, create_checkout_session, h, Json.truthy]
    · constructor <;>
        simp [create_payment_intent, create_checkout_session, h, Json.truthy, hn0,
          leZero, decide_eq_true hn]
  · by_cases hx0 : x.mant = 0
    · constructor <;>
        simp [create_payment_intent, create_checkout_session, h, Json.truthy, hx0]
    · constructor <;>
        simp [create_payment_intent, create_checkout_session, h, Json.truthy, hx0,
          leZero, decide_eq_true hx]

/-- Witness for C5 at a body with no amount at all. -/
theorem invalid_amount_rejected_no_call_witness :
    create_payment_intent [] (.requestException "down")
      = ⟨.jsonBody [("error", .str "Invalid amount")] 400, none⟩
    ∧ create_checkout_session "http://localhost:5500/" [] (.requestException "down")
      = ⟨.jsonBody [("error", .str "Invalid amount")] 400, none⟩ :=
  invalid_amount_rejected_no_call [] (.requestException "down") "http://localhost:5500/"
    (Or.inl rfl)

/-- C6 counterexample: an 18-character key is shorter than 24 characters,
yet the logged Authorization line is not "***": the length test and the
slices apply to the value "Bearer " + key (25 characters here), so the line
shows "Bearer ", 13 key characters, "...", and the key's last 4. -/
theorem masking_short_key_not_starred :
    ("sk_test_abcdefghij".length < 24)
    ∧ maskedAuthorization "sk_test_abcdefghij" = "Bearer sk_test_abcde...ghij"
    ∧ maskedAuthorization "sk_test_abcdefghij" ≠ "***" := by
  refine ⟨by decide, by decide, by decide⟩

/-- C6 (amended): the masking slices the header value `"Bearer " + key`, so
for keys of at least 18 characters the log shows "Bearer ", the key's first
13 characters, "...", and its last 4; the "***" fallback applies to keys of
at most 17 characters (value length at most 24). -/
theorem masking_characterization (key : String) :
    (17 < key.length →
      maskedAuthorization key
        = String.mk ("Bearer ".toList ++ key.toList.take 13 ++ "...".toList
            ++ key.toList.drop (key.length - 4)))
    ∧ (key.length ≤ 17 → maskedAuthorization key = "***") := by
  have hklen : key.length = key.toList.length := rfl
  have hdata : ("Bearer " ++ key).toList = "Bearer ".toList ++ key.toList := by
    simp [String.toList, String.data_append]
  have hlen7 : ("Bearer ".toList).length = 7 := by decide
  constructor
  · intro hk
    unfold maskedAuthorization maskChars
    rw [hdata, List.length_append, hlen7]
    rw [if_pos (by omega)]
    congr 1
    rw [List.take_append_eq_append_take, List.take_of_length_le (by omega), hlen7]
    rw [List.drop_append_eq_append_drop, hlen7]
    rw [List.drop_eq_nil_of_le (by omega)]
    have e1 : 20 - 7 = 13 := by norm_num
    have e2 : 7 + key.toList.length - 4 - 7 = key.length - 4 := by omega
    rw [e1, e2]
    simp
  · intro hk
    unfold maskedAuthorization maskChars
    rw [hdata, List.length_append, hlen7]
    rw [if_neg (by omega)]
    rfl

/-- Witness for C6 (amended) at a 30-character key. -/
theorem masking_characterization_witness :
    maskedAuthorization "sk_live_abcdefghijklmnopqrstuv"
      = String.mk ("Bearer ".toList ++ "sk_live_abcdefghijklmnopqrstuv".toList.take 13
          ++ "...".toList
          ++ "sk_live_abcdefghijklmnopqrstuv".toList.drop
              ("sk_live_abcdefghijklmnopqrstuv".length - 4)) :=
  (masking_characterization "sk_live_abcdefghijklmnopqrstuv").1 (by decide)

/-- C7: for every method string, endpoint path, optional form data and every
gateway behavior - response, network failure, or other internal failure -
the shared helper returns a normalized triple and never lets an exception
escape to its caller. -/
theorem make_stripe_request_total (method endpoint : String)
    (data : Option (List (String × Json))) (gw : GatewayOutcome) :
    ∃ r, make_stripe_request method endpoint data gw = .ret r := by
  unfold make_stripe_request
  cases stripeTryBody method gw with
  | ok r => exact ⟨r, rfl⟩
  | error e => cases e <;> exact ⟨_, rfl⟩

/-- C8: run with no configured secret key, the self-test prints the
configuration-missing message, makes no network call, and the process exits
with status 1 - whatever the gateway would have answered. -/
theorem self_test_missing_key (gw : TestGateway) :
    (test_api_main none gw).1.lines.head?
      = some "❌ Error: STRIPE_SECRET_KEY not found in environment variables"
    ∧ (test_api_main none gw).1.calls = []
    ∧ (test_api_main none gw).2 = 1
    ∧ (test_api_main none gw).2 ≠ 0 :=
  ⟨rfl, rfl, rfl, Nat.one_ne_zero⟩

/-- C9 counterexample: a 2xx response whose body is the JSON literal `null`
makes the helper return `(None, 200, None)`: both the data slot and the
error slot are the absent value at once, so "exactly one is absent" fails. -/
theorem helper_both_slots_null_possible :
    make_stripe_request "GET" "customers?limit=1" none (.response 200 (.json .null))
      = .ret ⟨.null, 200, .null⟩
    ∧ Json.isNull Json.null = true :=
  ⟨rfl, rfl⟩

/-- C9 (amended): at most one of the two slots is present: a non-None data
slot forces a None error slot and a non-None error slot forces a None data
slot (both can be None at once, e.g. on a 2xx body `null`). -/
theorem helper_slot_mutual_exclusion (method endpoint : String)
    (data : Option (List (String × Json))) (gw : GatewayOutcome) (res : StripeResult)
    (h : make_stripe_request method endpoint data gw = .ret res) :
    (res.response_data.isNull = false → res.error.isNull = true)
    ∧ (res.error.isNull = false → res.response_data.isNull = true) := by
  rcases helper_slots _ _ _ _ _ h with hd | he
  · refine ⟨fun hfalse => ?_, fun _ => by rw [hd]; rfl⟩
    rw [hd] at hfalse; exact absurd hfalse (by simp [Json.isNull])
  · refine ⟨fun _ => by rw [he]; rfl, fun hfalse => ?_⟩
    rw [he] at hfalse; exact absurd hfalse (by simp [Json.isNull])

/-- Witness for C9 (amended) at a concrete successful lookup. -/
theorem helper_slot_mutual_exclusion_witness :
    Json.isNull Json.null = true :=
  (helper_slot_mutual_exclusion "GET" "customers?limit=1" none
      (.response 200 (.json (.obj [("id", Json.str "cus_1")])))
      ⟨.obj [("id", Json.str "cus_1")], 200, .null⟩ rfl).1 rfl

/-- C10: a non-empty non-numeric `amount` (such as the string "abc") passes
the truthiness test, then `amount <= 0` raises `TypeError`, which the
endpoint's catch-all converts to 500 `{'error': 'An error occurred'}` - not
400 "Invalid amount" - with no gateway call. -/
theorem nonnumeric_amount_500 (body : List (String × Json)) (gw : GatewayOutcome)
    (urlRoot : String) (s : String)
    (h : lookupField body "amount" = some (.str s)) (hs : s ≠ "") :
    create_payment_intent body gw
      = ⟨.jsonBody [("error", .str "An error occurred")] 500, none⟩
    ∧ create_checkout_session urlRoot body gw
      = ⟨.jsonBody [("error", .str "An error occurred")] 500, none⟩ := by
  constructor <;>
    simp [create_payment_intent, create_checkout_session, h, Json.truthy, leZero, hs]

/-- Witness for C10 at the body `{"amount": "abc"}`. -/
theorem nonnumeric_amount_500_witness :
    create_payment_intent [("amount", Json.str "abc")] (.requestException "down")
      = ⟨.jsonBody [("error", .str "An error occurred")] 500, none⟩
    ∧ create_checkout_session "http://localhost:5500/" [("amount", Json.str "abc")]
        (.requestException "down")
      = ⟨.jsonBody [("error", .str "An error occurred")] 500, none⟩ :=
  nonnumeric_amount_500 [("amount", Json.str "abc")] (.requestException "down")
    "http://localhost:5500/" "abc" rfl (by decide)

end StripeProxy
